import Mathlib

set_option maxHeartbeats 1000000
set_option linter.unnecessarySeqFocus false

/-!
Shallow embedding of the contact-relationship controller
(`src/controllers/contactController.js`) of the PINGME chat application.

The `Contact` table is modelled as a list of rows plus a fresh-id counter.
Each controller handler becomes a pure function from the user table and the
store to an `OpOut` record carrying the HTTP status, the response message,
the resulting store, and the socket events emitted during the call.
External read-only collaborators of the friends aggregator (unread-count
rows, last-message lookups) are passed in as data and as a lookup oracle,
with explicit success flags for the two batch loads that can fail.
-/

namespace PingMe

/-- Relationship status stored on a contact row. -/
inductive CStatus where
  | pending
  | accepted
  | blocked
  deriving DecidableEq, Repr

/-- A relationship row of the `Contact` table. -/
structure Contact where
  id : Nat
  requesterId : Nat
  addresseeId : Nat
  status : CStatus
  deriving DecidableEq, Repr

/-- A row of the `User` table, restricted to the attributes the controller projects. -/
structure User where
  id : Nat
  name : String := ""
  email : String := ""
  img : String := ""
  isOnline : Bool := false
  status : String := ""
  deriving DecidableEq, Repr

/-- The relationship store: the `Contact` table plus the next fresh primary key. -/
structure Store where
  contacts : List Contact
  nextId : Nat
  deriving DecidableEq, Repr

/-- Socket event payloads emitted by the controller handlers. -/
inductive Payload where
  | profileWithContact (sender : User) (contactId : Nat)
  | newFriend (message : String) (friend : User)
  | requestRef (requestId : Nat)
  | friendRef (friendId : Nat)
  | byUser (userId : Nat)
  deriving DecidableEq, Repr

/-- An emitted socket event: target room, event name, payload. -/
structure Event where
  room : String
  name : String
  payload : Payload
  deriving DecidableEq, Repr

/-- Result of one controller call: HTTP status code, response message,
resulting store, and the events emitted during the call, in order. -/
structure OpOut where
  status : Nat
  message : String
  store : Store
  events : List Event
  deriving DecidableEq, Repr

/-- Per-user socket room name, as built by the controller. -/
def userRoom (uid : Nat) : String := "user_" ++ toString uid

/-- `User.findByPk`. -/
def findUser (users : List User) (uid : Nat) : Option User :=
  users.find? (fun u => decide (u.id = uid))

/-- The `where` clause used to look a pair up in either orientation. -/
def samePair (c : Contact) (u v : Nat) : Bool :=
  decide ((c.requesterId = u ∧ c.addresseeId = v) ∨ (c.requesterId = v ∧ c.addresseeId = u))

/-- `Contact.findOne` over the unordered pair `{u, v}`. -/
def findPair (s : Store) (u v : Nat) : Option Contact :=
  s.contacts.find? (fun c => samePair c u v)

/-- Replace the first element satisfying `p` (a row update through a fetched model). -/
def replaceFirst (p : α → Bool) (a : α) : List α → List α
  | [] => []
  | x :: xs => if p x then a :: xs else x :: replaceFirst p a xs

/-- `sendFriendRequest` (POST /api/contacts/send-request/:userId). -/
def sendFriendRequest (users : List User) (s : Store) (requesterId addresseeId : Nat) : OpOut :=
  if requesterId = addresseeId then
    ⟨400, "You cannot send a friend request to yourself", s, []⟩
  else
    match findUser users addresseeId with
    | none => ⟨400, "The user you are trying to add does not exist", s, []⟩
    | some _ =>
      match findPair s requesterId addresseeId with
      | some existingContact =>
        if existingContact.status = CStatus.accepted then
          ⟨409, "You are already friends with this user", s, []⟩
        else
          ⟨409, "A friend request already exists", s, []⟩
      | none =>
        let newRequest : Contact := ⟨s.nextId, requesterId, addresseeId, CStatus.pending⟩
        let s2 : Store := ⟨s.contacts ++ [newRequest], s.nextId + 1⟩
        match findUser users requesterId with
        | none => ⟨500, "An internal server error occurred.", s2, []⟩
        | some sender =>
          ⟨201, "Friend request sent successfully.", s2,
            [⟨userRoom addresseeId, "newFriendRequest",
              Payload.profileWithContact sender newRequest.id⟩]⟩

/-- `updateFriendRequest` (POST /api/contacts/accept/:requestId or /decline/:requestId).
On accept, the two user lookups happen before either emit; a missing acceptor
record aborts before the first emit, a missing sender record aborts between the
two emits (the `.name` dereference in each payload throws). -/
def updateFriendRequest (users : List User) (s : Store) (currentUserId requestId : Nat)
    (action : String) : OpOut :=
  if ¬ (action = "accept" ∨ action = "decline") then
    ⟨400, "Invalid action. Must be 'accept' or 'decline'.", s, []⟩
  else
    match s.contacts.find? (fun c => decide (c.id = requestId)) with
    | none => ⟨404, "Friend request not found.", s, []⟩
    | some request =>
      if request.addresseeId ≠ currentUserId then
        ⟨403, "You are not authorized to respond to this request.", s, []⟩
      else if request.status ≠ CStatus.pending then
        ⟨409, "This request has already been responded to.", s, []⟩
      else if action = "accept" then
        let s2 : Store :=
          ⟨s.contacts.map (fun c =>
              if c.id = requestId then { c with status := CStatus.accepted } else c),
           s.nextId⟩
        match findUser users currentUserId with
        | none => ⟨500, "An internal server error occurred.", s2, []⟩
        | some acceptor =>
          let ev1 : Event :=
            ⟨userRoom request.requesterId, "friendRequestAccepted",
             Payload.newFriend ("You are now friends with " ++ acceptor.name) acceptor⟩
          match findUser users request.requesterId with
          | none => ⟨500, "An internal server error occurred.", s2, [ev1]⟩
          | some sender =>
            ⟨200, "Friend request accepted.", s2,
             [ev1,
              ⟨userRoom currentUserId, "newFriendAdded",
               Payload.newFriend ("You are now friends with " ++ sender.name) sender⟩]⟩
      else
        ⟨200, "Friend request declined.",
         ⟨s.contacts.eraseP (fun c => decide (c.id = requestId)), s.nextId⟩,
         [⟨userRoom request.requesterId, "friendRequestDeclined", Payload.requestRef requestId⟩]⟩

/-- `removeFriend` (POST /api/contacts/unfriend/:userId). -/
def removeFriend (s : Store) (currentUserId friendId : Nat) : OpOut :=
  match s.contacts.find? (fun c =>
      decide (c.status = CStatus.accepted) && samePair c currentUserId friendId) with
  | none => ⟨404, "You are not friends with this user.", s, []⟩
  | some _ =>
    ⟨200, "Friend removed successfully.",
     ⟨s.contacts.eraseP (fun c =>
        decide (c.status = CStatus.accepted) && samePair c currentUserId friendId), s.nextId⟩,
     [⟨userRoom friendId, "friendRemoved", Payload.friendRef currentUserId⟩]⟩

/-- `blockUser` (POST /api/contacts/block/:userId). -/
def blockUser (users : List User) (s : Store) (requesterId addresseeId : Nat) : OpOut :=
  if requesterId = addresseeId then
    ⟨400, "You cannot block yourself.", s, []⟩
  else
    match findUser users addresseeId with
    | none => ⟨404, "The user you are trying to block does not exist.", s, []⟩
    | some _ =>
      match findPair s requesterId addresseeId with
      | some existingContact =>
        let updated : Contact := ⟨existingContact.id, requesterId, addresseeId, CStatus.blocked⟩
        ⟨200, "User blocked successfully.",
         ⟨replaceFirst (fun c => samePair c requesterId addresseeId) updated s.contacts,
          s.nextId⟩,
         []⟩
      | none =>
        let newBlockedContact : Contact := ⟨s.nextId, requesterId, addresseeId, CStatus.blocked⟩
        ⟨201, "User blocked successfully.",
         ⟨s.contacts ++ [newBlockedContact], s.nextId + 1⟩,
         [⟨userRoom addresseeId, "youWereBlocked", Payload.byUser requesterId⟩]⟩

/-- `cancelRequest` (POST /api/contacts/cancel-request/:requestId). -/
def cancelRequest (s : Store) (requesterId requestId : Nat) : OpOut :=
  match s.contacts.find? (fun c =>
      decide (c.id = requestId ∧ c.requesterId = requesterId ∧ c.status = CStatus.pending)) with
  | none => ⟨404, "Request not found or you are not authorized to cancel it.", s, []⟩
  | some request =>
    ⟨200, "Friend request cancelled.",
     ⟨s.contacts.eraseP (fun c =>
        decide (c.id = requestId ∧ c.requesterId = requesterId ∧ c.status = CStatus.pending)),
      s.nextId⟩,
     [⟨userRoom request.addresseeId, "friendRequestCancelled", Payload.requestRef requestId⟩]⟩

/-- `unblockUser` (POST /api/contacts/unblock/:userId). -/
def unblockUser (s : Store) (currentUserId blockedUserId : Nat) : OpOut :=
  match s.contacts.find? (fun c =>
      decide (c.requesterId = currentUserId ∧ c.addresseeId = blockedUserId ∧
        c.status = CStatus.blocked)) with
  | none => ⟨401, "Blocked relationship not found.", s, []⟩
  | some _ =>
    ⟨200, "User unblocked successfully.",
     ⟨s.contacts.eraseP (fun c =>
        decide (c.requesterId = currentUserId ∧ c.addresseeId = blockedUserId ∧
          c.status = CStatus.blocked)),
      s.nextId⟩,
     [⟨userRoom blockedUserId, "youWereUnblocked", Payload.byUser currentUserId⟩]⟩

/-- The state-machine operations, named as in the specification. -/
inductive Op where
  | requestConnection (actor target : Nat)
  | respondToRequest (actor requestId : Nat) (action : String)
  | cancelRequest (actor requestId : Nat)
  | removeConnection (actor other : Nat)
  | blockUser (actor target : Nat)
  | unblockUser (actor target : Nat)
  deriving DecidableEq, Repr

/-- Dispatch one operation to the corresponding controller handler. -/
def applyOp (users : List User) (s : Store) : Op → OpOut
  | .requestConnection actor target => sendFriendRequest users s actor target
  | .respondToRequest actor requestId action =>
      updateFriendRequest users s actor requestId action
  | .cancelRequest actor requestId => cancelRequest s actor requestId
  | .removeConnection actor other => removeFriend s actor other
  | .blockUser actor target => blockUser users s actor target
  | .unblockUser actor target => unblockUser s actor target

/-- Run a sequence of operations, keeping only the store. -/
def applyOps (users : List User) (ops : List Op) (s : Store) : Store :=
  ops.foldl (fun st op => (applyOp users st op).store) s

/-- Invariant I1, phrased per pair: for distinct users `u`, `v`, at most one
row matches the unordered pair `{u, v}`. -/
def pairUnique (s : Store) : Prop :=
  ∀ u v : Nat, u ≠ v → ((s.contacts.filter (fun c => samePair c u v)).length ≤ 1)

/-- A last-message record returned by the message-storage collaborator
(projected: sender and content are all the aggregator forwards). -/
structure LastMsg where
  senderId : Nat
  content : String := ""
  deriving DecidableEq, Repr

/-- A row of the `UnreadCount` table. -/
structure UnreadRow where
  userId : Nat
  chatType : String := "individual"
  chatId : Nat
  count : Nat
  deriving DecidableEq, Repr

/-- One entry of the composed friends view. -/
structure FriendEntry where
  id : Nat
  name : String
  email : String
  img : String
  isOnline : Bool
  status : String
  unreadCount : Nat
  messages : List LastMsg
  lastMessage : Option LastMsg
  deriving DecidableEq, Repr

/-- `getOtherUser`: resolve the friend side of a contact row (the included
`Addressee` when the caller is the requester, otherwise the included `Requester`). -/
def getOtherUser (users : List User) (c : Contact) (userId : Nat) : Option User :=
  if c.requesterId = userId then findUser users c.addresseeId else findUser users c.requesterId

/-- Index into a key-value list with JavaScript `reduce`-into-object semantics:
the value of the last pair carrying the key wins; `none` when the key is absent. -/
def lastValue (l : List (Nat × α)) (k : Nat) : Option α :=
  match l with
  | [] => none
  | p :: rest =>
    match lastValue rest k with
    | some v => some v
    | none => if p.1 = k then some p.2 else none

/-- `String.prototype.includes`: does `hay` contain `needle` as a contiguous
substring? -/
def hasSub : List Char → List Char → Bool
  | [], needle => needle.isEmpty
  | c :: t, needle => needle.isPrefixOf (c :: t) || hasSub t needle

/-- `friend.name ? friend.name[0].toUpperCase() : "U"`. -/
def firstLetterOfName (name : String) : String :=
  match name.data with
  | [] => "U"
  | c :: _ => String.singleton c.toUpper

/-- The personalized placeholder URL built in `getFriends`. -/
def placeholderUrl (name : String) : String :=
  "https://placehold.co/50x50/695cfe/ffffff?text=" ++ firstLetterOfName name

/-- The inline avatar fix-up of `getFriends`: a missing avatar, or the generic
`placehold.co` avatar with `text=U`, is replaced by a placeholder keyed by the
uppercased first letter of the name (`"U"` for an empty name). -/
def resolveAvatar (img name : String) : String :=
  if img ≠ "" ∧ hasSub img.data "placehold.co".data = true ∧
      hasSub img.data "text=U".data = true then
    placeholderUrl name
  else if img = "" then
    placeholderUrl name
  else img

/-- Build one friends-view entry from the resolved friend, the unread-count map
lookup and the last-message map lookup. -/
def mkFriendEntry (friend : User) (cnt : Option Nat) (lm : Option LastMsg) : FriendEntry :=
  { id := friend.id, name := friend.name, email := friend.email,
    img := resolveAvatar friend.img friend.name,
    isOnline := friend.isOnline, status := friend.status,
    unreadCount := cnt.getD 0,
    messages := match lm with | some m => [m] | none => [],
    lastMessage := lm }

/-- Steps 1–2 of `getFriends`: the accepted rows touching `userId`, resolved to
the other party's user record, dropping rows whose other user is missing. -/
def friendsListOf (userId : Nat) (users : List User) (s : Store) : List User :=
  (s.contacts.filter (fun c =>
    decide (c.status = CStatus.accepted ∧
      (c.requesterId = userId ∨ c.addresseeId = userId)))).filterMap
    (fun c => getOtherUser users c userId)

/-- Step 3 of `getFriends`: the batch-loaded unread-count rows for the friend ids. -/
def unreadCountsOf (userId : Nat) (unreadRows : List UnreadRow) (friendIds : List Nat) :
    List UnreadRow :=
  unreadRows.filter (fun r =>
    decide (r.userId = userId) && decide (r.chatType = "individual") &&
      friendIds.contains r.chatId)

/-- Step 4 of `getFriends`: the per-friend last-message fan-out, each failure
caught and converted to `none` for that friend only. -/
def lastMessagesOf (friendIds : List Nat)
    (lastMsgLookup : Nat → Except Unit (Option LastMsg)) : List (Nat × Option LastMsg) :=
  friendIds.map (fun fid =>
    (fid, match lastMsgLookup fid with
          | Except.ok m => m
          | Except.error _ => none))

/-- `getFriends` (GET /api/contacts/friends). `contactsOk` and `unreadOk` say
whether the two batch loads succeed (a rejection there is caught only by the
outer handler and turns into a 500, modelled as `Except.error`);
`lastMsgLookup` is the per-friend last-message collaborator, whose failures the
handler catches per friend and converts to `none`. -/
def getFriends (userId : Nat) (users : List User) (s : Store)
    (unreadRows : List UnreadRow) (contactsOk unreadOk : Bool)
    (lastMsgLookup : Nat → Except Unit (Option LastMsg)) :
    Except Unit (List FriendEntry) :=
  if contactsOk = false then Except.error () else
  let friendsList := friendsListOf userId users s
  let friendIds := friendsList.map (fun f => f.id)
  if unreadOk = false then Except.error () else
  let unreadCounts := unreadCountsOf userId unreadRows friendIds
  let lastMessages := lastMessagesOf friendIds lastMsgLookup
  let countPairs := unreadCounts.map (fun r => (r.chatId, r.count))
  Except.ok (friendsList.map (fun friend =>
    mkFriendEntry friend (lastValue countPairs friend.id)
      ((lastValue lastMessages friend.id).join)))

/-- C10: `updateFriendRequest` validates the `action` string before any row
lookup; an action other than `"accept"` or `"decline"` always yields the 400
invalid-action response, with the store untouched and no events, regardless of
the store contents, the request id, or the actor. -/
theorem c10_invalid_action_rejected_first (users : List User) (s : Store)
    (actor requestId : Nat) (action : String)
    (h1 : action ≠ "accept") (h2 : action ≠ "decline") :
    updateFriendRequest users s actor requestId action =
      ⟨400, "Invalid action. Must be 'accept' or 'decline'.", s, []⟩ := by
  simp [updateFriendRequest, h1, h2]

/-- Witness for C10 at a concrete store that even contains a matching pending
row, showing the invalid action still short-circuits. -/
theorem c10_invalid_action_rejected_first_witness :
    updateFriendRequest [{id := 1}, {id := 2}] ⟨[⟨7, 1, 2, CStatus.pending⟩], 8⟩ 2 7 "reject" =
      ⟨400, "Invalid action. Must be 'accept' or 'decline'.",
       ⟨[⟨7, 1, 2, CStatus.pending⟩], 8⟩, []⟩ :=
  c10_invalid_action_rejected_first [{id := 1}, {id := 2}] ⟨[⟨7, 1, 2, CStatus.pending⟩], 8⟩
    2 7 "reject" (by decide) (by decide)

/-- C9: avatar resolution is a pure function of stored avatar and display name:
an empty avatar, or one matching the generic `placehold.co`/`text=U`
placeholder pattern, resolves to the deterministic placeholder URL keyed by the
friend's uppercased first letter (`"U"` when the name is empty); any other
stored avatar is returned unchanged. -/
theorem c9_avatar_resolution (img name : String) :
    ((img = "" ∨ (hasSub img.data "placehold.co".data = true ∧
        hasSub img.data "text=U".data = true)) →
      resolveAvatar img name = placeholderUrl name) ∧
    (¬(img = "" ∨ (hasSub img.data "placehold.co".data = true ∧
        hasSub img.data "text=U".data = true)) →
      resolveAvatar img name = img) ∧
    (name = "" → placeholderUrl name = "https://placehold.co/50x50/695cfe/ffffff?text=U") ∧
    (∀ c rest, name.data = c :: rest →
      placeholderUrl name =
        "https://placehold.co/50x50/695cfe/ffffff?text=" ++ String.singleton c.toUpper) := by
  refine ⟨?_, ?_, ?_, ?_⟩
  · intro h
    rcases h with h | ⟨h1, h2⟩
    · simp [resolveAvatar, h]
    · by_cases he : img = ""
      · simp [resolveAvatar, he]
      · simp [resolveAvatar, he, h1, h2]
  · intro h
    push_neg at h
    obtain ⟨he, hp⟩ := h
    have : ¬(img ≠ "" ∧ hasSub img.data "placehold.co".data = true ∧
        hasSub img.data "text=U".data = true) := by
      intro ⟨_, hc⟩; exact hp hc.1 hc.2
    rw [resolveAvatar, if_neg this, if_neg he]
  · intro h
    subst h
    rfl
  · intro c rest h
    simp [placeholderUrl, firstLetterOfName, h]

/-- Witness for C9 on concrete inputs: empty avatar gets the personalized
placeholder; a custom avatar is kept. -/
theorem c9_avatar_resolution_witness :
    resolveAvatar "" "bob" = placeholderUrl "bob" ∧
    resolveAvatar "http://x/me.png" "bob" = "http://x/me.png" ∧
    placeholderUrl "" = "https://placehold.co/50x50/695cfe/ffffff?text=U" :=
  ⟨(c9_avatar_resolution "" "bob").1 (Or.inl rfl),
   (c9_avatar_resolution "http://x/me.png" "bob").2.1 (by decide),
   (c9_avatar_resolution "http://x/me.png" "").2.2.1 rfl⟩

/-- C3: `sendFriendRequest` validation order and outcomes: self-request → 400;
missing target user → 400 not-found message; an existing row for the unordered
pair → 409, with the message distinguishing already-friends (accepted row)
from an already-existing request; otherwise a fresh `pending` row with
`requesterId = actor` is created (201 when the sender record resolves). -/
theorem c3_requestConnection_validation (users : List User) (s : Store) (actor target : Nat) :
    (actor = target →
      sendFriendRequest users s actor target =
        ⟨400, "You cannot send a friend request to yourself", s, []⟩) ∧
    (actor ≠ target → findUser users target = none →
      sendFriendRequest users s actor target =
        ⟨400, "The user you are trying to add does not exist", s, []⟩) ∧
    (∀ u c, actor ≠ target → findUser users target = some u →
      findPair s actor target = some c →
      ((c.status = CStatus.accepted →
          sendFriendRequest users s actor target =
            ⟨409, "You are already friends with this user", s, []⟩) ∧
       (c.status ≠ CStatus.accepted →
          sendFriendRequest users s actor target =
            ⟨409, "A friend request already exists", s, []⟩))) ∧
    (∀ u a, actor ≠ target → findUser users target = some u →
      findPair s actor target = none → findUser users actor = some a →
      sendFriendRequest users s actor target =
        ⟨201, "Friend request sent successfully.",
         ⟨s.contacts ++ [⟨s.nextId, actor, target, CStatus.pending⟩], s.nextId + 1⟩,
         [⟨userRoom target, "newFriendRequest",
           Payload.profileWithContact a s.nextId⟩]⟩) := by
  refine ⟨?_, ?_, ?_, ?_⟩
  · intro h
    simp [sendFriendRequest, h]
  · intro h1 h2
    simp [sendFriendRequest, h1, h2]
  · intro u c h1 h2 h3
    constructor
    · intro hs
      simp [sendFriendRequest, h1, h2, h3, hs]
    · intro hs
      simp [sendFriendRequest, h1, h2, h3, hs]
  · intro u a h1 h2 h3 h4
    simp [sendFriendRequest, h1, h2, h3, h4]

/-- Witness for C3: concrete successful request creation between users 1 and 2. -/
theorem c3_requestConnection_validation_witness :
    sendFriendRequest [{id := 1}, {id := 2}] ⟨[], 5⟩ 1 2 =
      ⟨201, "Friend request sent successfully.",
       ⟨[⟨5, 1, 2, CStatus.pending⟩], 6⟩,
       [⟨userRoom 2, "newFriendRequest", Payload.profileWithContact {id := 1} 5⟩]⟩ :=
  (c3_requestConnection_validation [{id := 1}, {id := 2}] ⟨[], 5⟩ 1 2).2.2.2
    {id := 2} {id := 1} (by decide) rfl rfl rfl

/-- C6: `blockUser` emits `youWereBlocked` exactly on the create-new-row branch:
given a valid call (distinct users, target exists), the event is emitted iff no
row existed for the pair, and blocking over an existing row of any status emits
nothing. -/
theorem c6_block_notification_only_on_create (users : List User) (s : Store) (u v : Nat)
    (hne : u ≠ v) (hv : (findUser users v).isSome) :
    (findPair s u v = none →
      (blockUser users s u v).events =
        [⟨userRoom v, "youWereBlocked", Payload.byUser u⟩]) ∧
    (∀ c, findPair s u v = some c → (blockUser users s u v).events = []) ∧
    ((blockUser users s u v).events ≠ [] ↔ findPair s u v = none) := by
  obtain ⟨uv, huv⟩ := Option.isSome_iff_exists.mp hv
  refine ⟨?_, ?_, ?_⟩
  · intro hfp
    simp [blockUser, hne, huv, hfp]
  · intro c hfp
    simp [blockUser, hne, huv, hfp]
  · cases hfp : findPair s u v with
    | none => simp [blockUser, hne, huv, hfp]
    | some c => simp [blockUser, hne, huv, hfp]

/-- Witness for C6: blocking with no prior row emits the event; blocking again
over the fresh row emits nothing. -/
theorem c6_block_notification_only_on_create_witness :
    (blockUser [{id := 1}, {id := 2}] ⟨[], 5⟩ 1 2).events =
      [⟨userRoom 2, "youWereBlocked", Payload.byUser 1⟩] ∧
    (blockUser [{id := 1}, {id := 2}] ⟨[⟨5, 1, 2, CStatus.blocked⟩], 6⟩ 1 2).events = [] :=
  ⟨(c6_block_notification_only_on_create [{id := 1}, {id := 2}] ⟨[], 5⟩ 1 2
      (by decide) (by decide)).1 rfl,
   (c6_block_notification_only_on_create [{id := 1}, {id := 2}]
      ⟨[⟨5, 1, 2, CStatus.blocked⟩], 6⟩ 1 2 (by decide) (by decide)).2.1
      ⟨5, 1, 2, CStatus.blocked⟩ rfl⟩

/-- Helper: every controller call either leaves the store untouched or reports
a success (200/201) or an internal failure (500). -/
theorem applyOp_store_eq_or_success (users : List User) (s : Store) (op : Op) :
    (applyOp users s op).store = s ∨ (applyOp users s op).status = 200 ∨
    (applyOp users s op).status = 201 ∨ (applyOp users s op).status = 500 := by
  cases op <;>
    simp only [applyOp, sendFriendRequest, updateFriendRequest, cancelRequest, removeFriend,
      blockUser, unblockUser] <;>
    (repeat' split) <;> simp

/-- C7: for every mutating operation and every store, a validation or
authorization error (HTTP 400, 401, 403, 404 or 409) leaves the store exactly
as it was before the call. -/
theorem c7_failure_preserves_store (users : List User) (s : Store) (op : Op)
    (h : (applyOp users s op).status = 400 ∨ (applyOp users s op).status = 401 ∨
         (applyOp users s op).status = 403 ∨ (applyOp users s op).status = 404 ∨
         (applyOp users s op).status = 409) :
    (applyOp users s op).store = s := by
  rcases applyOp_store_eq_or_success users s op with hk | hk | hk | hk
  · exact hk
  all_goals rcases h with h | h | h | h | h <;> omega

/-- Witness for C7: a duplicate friend request (409) leaves the store unchanged. -/
theorem c7_failure_preserves_store_witness :
    (applyOp [{id := 1}, {id := 2}] ⟨[⟨3, 1, 2, CStatus.pending⟩], 4⟩
        (Op.requestConnection 2 1)).store = ⟨[⟨3, 1, 2, CStatus.pending⟩], 4⟩ :=
  c7_failure_preserves_store [{id := 1}, {id := 2}] ⟨[⟨3, 1, 2, CStatus.pending⟩], 4⟩
    (Op.requestConnection 2 1) (Or.inr (Or.inr (Or.inr (Or.inr (by decide)))))

/-- C5: accepting a friend request is the only transition emitting more than one
event: on a successful accept exactly the two events `friendRequestAccepted`
(to the original requester, carrying the acceptor's profile) and
`newFriendAdded` (to the acceptor, carrying the requester's profile) are
emitted, in that order; every other controller call emits at most one event. -/
theorem c5_accept_dual_notification (users : List User) (s : Store) :
    (∀ a t, (sendFriendRequest users s a t).events.length ≤ 1) ∧
    (∀ a r action, action ≠ "accept" →
      (updateFriendRequest users s a r action).events.length ≤ 1) ∧
    (∀ a r, (updateFriendRequest users s a r "accept").status = 200 →
      ∃ request acceptor sender,
        s.contacts.find? (fun c => decide (c.id = r)) = some request ∧
        findUser users a = some acceptor ∧
        findUser users request.requesterId = some sender ∧
        (updateFriendRequest users s a r "accept").events =
          [⟨userRoom request.requesterId, "friendRequestAccepted",
            Payload.newFriend ("You are now friends with " ++ acceptor.name) acceptor⟩,
           ⟨userRoom a, "newFriendAdded",
            Payload.newFriend ("You are now friends with " ++ sender.name) sender⟩]) ∧
    (∀ a r, (cancelRequest s a r).events.length ≤ 1) ∧
    (∀ a o, (removeFriend s a o).events.length ≤ 1) ∧
    (∀ a t, (blockUser users s a t).events.length ≤ 1) ∧
    (∀ a t, (unblockUser s a t).events.length ≤ 1) := by
  refine ⟨?_, ?_, ?_, ?_, ?_, ?_, ?_⟩
  · intro a t
    simp only [sendFriendRequest]
    (repeat' split) <;> simp
  · intro a r action hact
    simp only [updateFriendRequest]
    (repeat' split) <;> simp_all
  · intro a r hs
    simp only [updateFriendRequest] at hs ⊢
    rw [if_neg (by decide)] at hs ⊢
    rcases hfind : s.contacts.find? (fun c => decide (c.id = r)) with _ | request <;>
      simp only [hfind] at hs ⊢
    · simp at hs
    · by_cases haddr : request.addresseeId ≠ a
      · rw [if_pos haddr] at hs; simp at hs
      · rw [if_neg haddr] at hs ⊢
        by_cases hst : request.status ≠ CStatus.pending
        · rw [if_pos hst] at hs; simp at hs
        · rw [if_neg hst] at hs ⊢
          simp only [if_true] at hs ⊢
          rcases hacc : findUser users a with _ | acceptor <;> simp only [hacc] at hs ⊢
          · simp at hs
          · rcases hsend : findUser users request.requesterId with _ | sender <;>
              simp only [hsend] at hs ⊢
            · simp at hs
            · exact ⟨request, acceptor, sender, rfl, rfl, hsend, rfl⟩
  · intro a r
    simp only [cancelRequest]
    (repeat' split) <;> simp
  · intro a o
    simp only [removeFriend]
    (repeat' split) <;> simp
  · intro a t
    simp only [blockUser]
    (repeat' split) <;> simp
  · intro a t
    simp only [unblockUser]
    (repeat' split) <;> simp

/-- Witness for C5: the concrete accept of request 7 by user 2 emits exactly the
two events with the expected rooms and profiles. -/
theorem c5_accept_dual_notification_witness :
    ∃ request acceptor sender,
      (⟨[⟨7, 1, 2, CStatus.pending⟩], 8⟩ : Store).contacts.find?
          (fun c => decide (c.id = 7)) = some request ∧
      findUser [{id := 1, name := "ann"}, {id := 2, name := "bob"}] 2 = some acceptor ∧
      findUser [{id := 1, name := "ann"}, {id := 2, name := "bob"}] request.requesterId =
        some sender ∧
      (updateFriendRequest [{id := 1, name := "ann"}, {id := 2, name := "bob"}]
          ⟨[⟨7, 1, 2, CStatus.pending⟩], 8⟩ 2 7 "accept").events =
        [⟨userRoom request.requesterId, "friendRequestAccepted",
          Payload.newFriend ("You are now friends with " ++ acceptor.name) acceptor⟩,
         ⟨userRoom 2, "newFriendAdded",
          Payload.newFriend ("You are now friends with " ++ sender.name) sender⟩] :=
  (c5_accept_dual_notification [{id := 1, name := "ann"}, {id := 2, name := "bob"}]
      ⟨[⟨7, 1, 2, CStatus.pending⟩], 8⟩).2.2.1 2 7 rfl

/-- Two pair keys denoting the same unordered pair give the same `samePair` test. -/
theorem samePair_key_congr (u v x y : Nat)
    (h : (u = x ∧ v = y) ∨ (u = y ∧ v = x)) (c : Contact) :
    samePair c x y = samePair c u v := by
  rcases h with ⟨h1, h2⟩ | ⟨h1, h2⟩ <;> subst h1 <;> subst h2
  · rfl
  · simp only [samePair]
    exact decide_eq_decide.mpr (by tauto)

/-- A row matching pair `{u, v}` answers every `samePair` test exactly as a row
whose fields are literally `(u, v)`. -/
theorem samePair_val_congr (c : Contact) (u v : Nat) (h : samePair c u v = true)
    (d : Contact) (hdu : d.requesterId = u) (hdv : d.addresseeId = v) (x y : Nat) :
    samePair c x y = samePair d x y := by
  simp only [samePair, decide_eq_true_eq] at h
  rcases h with ⟨h1, h2⟩ | ⟨h1, h2⟩ <;>
    simp only [samePair, h1, h2, hdu, hdv] <;>
    exact decide_eq_decide.mpr (by tauto)

/-- When no row matches the pair, the pair filter is empty. -/
theorem filter_pair_nil_of_find_none (s : Store) (u v : Nat)
    (h : findPair s u v = none) :
    s.contacts.filter (fun c => samePair c u v) = [] := by
  rw [List.filter_eq_nil_iff]
  intro a ha
  simpa using List.find?_eq_none.mp h a ha

/-- Erasing never grows a filter. -/
theorem length_filter_eraseP_le (p q : α → Bool) (l : List α) :
    ((l.eraseP q).filter p).length ≤ (l.filter p).length :=
  ((l.eraseP_sublist (p := q)).filter p).length_le

/-- A map that does not change the filter predicate's answer keeps the filter
length. -/
theorem length_filter_map_eq (p : α → Bool) (f : α → α) (l : List α)
    (h : ∀ x, p (f x) = p x) : ((l.map f).filter p).length = (l.filter p).length := by
  induction l with
  | nil => rfl
  | cons x xs ih =>
    simp only [List.map_cons, List.filter_cons, h x]
    cases hx : p x <;> simp [ih]

/-- Replacing the first `q`-match by an element answering every test `p` like
any `q`-match keeps the filter length. -/
theorem length_filter_replaceFirst_eq (p q : α → Bool) (a : α) (l : List α)
    (h : ∀ x, q x = true → p x = p a) :
    ((replaceFirst q a l).filter p).length = (l.filter p).length := by
  induction l with
  | nil => rfl
  | cons x xs ih =>
    by_cases hq : q x = true
    · simp only [replaceFirst, if_pos hq, List.filter_cons, h x hq]
      cases p a <;> simp
    · simp only [replaceFirst, if_neg hq, List.filter_cons]
      cases hx : p x <;> simp [ih]

/-- Deleting rows preserves invariant I1. -/
theorem pairUnique_eraseP (s : Store) (q : Contact → Bool) (n : Nat)
    (h : pairUnique s) : pairUnique ⟨s.contacts.eraseP q, n⟩ := by
  intro x y hxy
  exact le_trans (length_filter_eraseP_le _ q s.contacts) (h x y hxy)

/-- Updating rows without touching their pair fields preserves invariant I1. -/
theorem pairUnique_map (s : Store) (f : Contact → Contact) (n : Nat)
    (hf : ∀ c, (f c).requesterId = c.requesterId ∧ (f c).addresseeId = c.addresseeId)
    (h : pairUnique s) : pairUnique ⟨s.contacts.map f, n⟩ := by
  intro x y hxy
  rw [length_filter_map_eq]
  · exact h x y hxy
  · intro c
    simp [samePair, (hf c).1, (hf c).2]

/-- Appending a row for a pair that had no row preserves invariant I1. -/
theorem pairUnique_append_new (s : Store) (a t : Nat) (c0 : Contact)
    (hreq : c0.requesterId = a) (hadd : c0.addresseeId = t)
    (hfp : findPair s a t = none) (h : pairUnique s) (n : Nat) :
    pairUnique ⟨s.contacts ++ [c0], n⟩ := by
  intro x y hxy
  simp only [List.filter_append]
  cases hnew : samePair c0 x y
  · simp only [List.filter_cons, List.filter_nil, hnew, List.length_append,
      List.length_nil, Nat.add_zero]
    exact h x y hxy
  · have hkey : (a = x ∧ t = y) ∨ (a = y ∧ t = x) := by
      simpa [samePair, hreq, hadd] using hnew
    have hnil : s.contacts.filter (fun c => samePair c x y) = [] := by
      rw [List.filter_congr (fun c _ => samePair_key_congr a t x y hkey c)]
      exact filter_pair_nil_of_find_none s a t hfp
    simp [hnil, hnew]

/-- Overwriting the (unique, if any) row of a pair in place with a row of the
same pair preserves invariant I1. -/
theorem pairUnique_replaceFirst (s : Store) (u v : Nat) (d : Contact)
    (hdu : d.requesterId = u) (hdv : d.addresseeId = v) (n : Nat) (h : pairUnique s) :
    pairUnique ⟨replaceFirst (fun c => samePair c u v) d s.contacts, n⟩ := by
  intro x y hxy
  rw [length_filter_replaceFirst_eq]
  · exact h x y hxy
  · intro c hc
    exact samePair_val_congr c u v hc d hdu hdv x y

/-- Helper: each single controller call preserves invariant I1. -/
theorem applyOp_preserves_pairUnique (users : List User) (s : Store) (op : Op)
    (h : pairUnique s) : pairUnique (applyOp users s op).store := by
  cases op with
  | requestConnection a t =>
    simp only [applyOp, sendFriendRequest]
    split
    · exact h
    · split
      · exact h
      · split
        · split <;> exact h
        · rename_i hfp
          have key := pairUnique_append_new s a t ⟨s.nextId, a, t, CStatus.pending⟩
            rfl rfl hfp h (s.nextId + 1)
          split <;> exact key
  | respondToRequest a r action =>
    simp only [applyOp, updateFriendRequest]
    split
    · exact h
    · split
      · exact h
      · split
        · exact h
        · split
          · exact h
          · split
            · have key := pairUnique_map s
                (fun c => if c.id = r then { c with status := CStatus.accepted } else c)
                s.nextId (fun c => by by_cases hc : c.id = r <;> simp [hc]) h
              split
              · exact key
              · split <;> exact key
            · exact pairUnique_eraseP s _ s.nextId h
  | cancelRequest a r =>
    simp only [applyOp, cancelRequest]
    split
    · exact h
    · exact pairUnique_eraseP s _ s.nextId h
  | removeConnection a o =>
    simp only [applyOp, removeFriend]
    split
    · exact h
    · exact pairUnique_eraseP s _ s.nextId h
  | blockUser a t =>
    simp only [applyOp, blockUser]
    split
    · exact h
    · split
      · exact h
      · split
        · rename_i c hfp
          exact pairUnique_replaceFirst s a t ⟨c.id, a, t, CStatus.blocked⟩ rfl rfl s.nextId h
        · rename_i hfp
          exact pairUnique_append_new s a t ⟨s.nextId, a, t, CStatus.blocked⟩
            rfl rfl hfp h (s.nextId + 1)
  | unblockUser a t =>
    simp only [applyOp, unblockUser]
    split
    · exact h
    · exact pairUnique_eraseP s _ s.nextId h

/-- C1: invariant I1 — starting from a store with at most one row per unordered
pair, every sequence of state-machine operations keeps at most one row per
unordered pair of distinct users (hence it holds after each operation of the
sequence, each prefix being itself a sequence). -/
theorem c1_pair_uniqueness_invariant (users : List User) (s : Store) (ops : List Op)
    (h : pairUnique s) : pairUnique (applyOps users ops s) := by
  induction ops generalizing s with
  | nil => exact h
  | cons op rest ih => exact ih (applyOp users s op).store (applyOp_preserves_pairUnique users s op h)

/-- Witness for C1: a concrete operation sequence from the empty store (request,
accept-id miss, block over the pending row, unblock, re-request). -/
theorem c1_pair_uniqueness_invariant_witness :
    pairUnique (applyOps [{id := 1}, {id := 2}]
      [Op.requestConnection 1 2, Op.blockUser 2 1, Op.unblockUser 2 1,
       Op.requestConnection 2 1] ⟨[], 0⟩) :=
  c1_pair_uniqueness_invariant [{id := 1}, {id := 2}]
    ⟨[], 0⟩
    [Op.requestConnection 1 2, Op.blockUser 2 1, Op.unblockUser 2 1,
     Op.requestConnection 2 1]
    (fun u v _ => by simp)

/-- Under invariant I1, a successful pair lookup means the pair filter is
exactly that one row. -/
theorem filter_pair_singleton_of_find (s : Store) (u v : Nat) (hne : u ≠ v)
    (hinv : pairUnique s) (c : Contact) (h : findPair s u v = some c) :
    s.contacts.filter (fun x => samePair x u v) = [c] := by
  have h' : s.contacts.find? (fun x => samePair x u v) = some c := h
  have hmem : c ∈ s.contacts := List.mem_of_find?_eq_some h'
  have hpc : samePair c u v = true := by simpa using List.find?_some h'
  have hmemf : c ∈ s.contacts.filter (fun x => samePair x u v) :=
    List.mem_filter.mpr ⟨hmem, hpc⟩
  have hlen := hinv u v hne
  rcases hfl : s.contacts.filter (fun x => samePair x u v) with _ | ⟨x, _ | ⟨y, t⟩⟩
  · rw [hfl] at hmemf
    simp at hmemf
  · rw [hfl] at hmemf
    simp at hmemf
    rw [hmemf]
  · rw [hfl] at hlen
    simp at hlen

/-- Replacing the unique `p`-row of a list by another `p`-row leaves exactly
that new row in the `p`-filter. -/
theorem filter_replaceFirst_singleton (p : α → Bool) (a c : α) (hpa : p a = true) :
    ∀ l : List α, l.filter p = [c] → (replaceFirst p a l).filter p = [a] := by
  intro l
  induction l with
  | nil =>
    intro h
    simp at h
  | cons x xs ih =>
    intro h
    by_cases hx : p x = true
    · rw [List.filter_cons, if_pos hx] at h
      have hxs : xs.filter p = [] := by
        injection h
      simp only [replaceFirst, if_pos hx, List.filter_cons, if_pos hpa, hxs]
    · rw [List.filter_cons, if_neg hx] at h
      simp only [replaceFirst, if_neg hx, List.filter_cons, if_neg hx]
      exact ih h

/-- Erasing the unique `p`-row (found through any refinement `q` of `p`)
empties the `p`-filter. -/
theorem filter_eraseP_nil (p q : α → Bool) (hq : ∀ x, q x = true → p x = true) :
    ∀ (l : List α) (row : α), l.filter p = [row] → q row = true →
      (l.eraseP q).filter p = [] := by
  intro l
  induction l with
  | nil =>
    intro row h _
    simp at h
  | cons x xs ih =>
    intro row h hqrow
    by_cases hpx : p x = true
    · rw [List.filter_cons, if_pos hpx] at h
      have hx : x = row := by injection h
      have hxs : xs.filter p = [] := by injection h
      rw [List.eraseP_cons_of_pos (l := xs) (hx ▸ hqrow)]
      exact hxs
    · rw [List.filter_cons, if_neg hpx] at h
      have hqx : ¬(q x = true) := fun hqx => hpx (hq x hqx)
      rw [List.eraseP_cons_of_neg (l := xs) (by simpa using hqx), List.filter_cons,
        if_neg hpx]
      exact ih row h hqrow

/-- An empty pair filter means the pair lookup misses. -/
theorem findPair_none_of_filter_nil (s : Store) (u v : Nat)
    (h : s.contacts.filter (fun c => samePair c u v) = []) : findPair s u v = none :=
  List.find?_eq_none.mpr (fun a ha => by
    simpa using List.filter_eq_nil_iff.mp h a ha)

/-- Helper: a successful `blockUser` leaves exactly one row for the pair, and it
is `⟨i, u, v, blocked⟩` for some id `i`. -/
theorem blockUser_pair_row (users : List User) (s : Store) (u v : Nat)
    (hne : u ≠ v) (uv : User) (hv : findUser users v = some uv) (hinv : pairUnique s) :
    ∃ i, (blockUser users s u v).store.contacts.filter (fun c => samePair c u v) =
      [⟨i, u, v, CStatus.blocked⟩] := by
  cases hfp : findPair s u v with
  | some c =>
    refine ⟨c.id, ?_⟩
    simp only [blockUser, if_neg hne, hv, hfp]
    exact filter_replaceFirst_singleton _ ⟨c.id, u, v, CStatus.blocked⟩ c
      (by simp [samePair]) s.contacts (filter_pair_singleton_of_find s u v hne hinv c hfp)
  | none =>
    refine ⟨s.nextId, ?_⟩
    simp only [blockUser, if_neg hne, hv, hfp]
    rw [List.filter_append, filter_pair_nil_of_find_none s u v hfp]
    simp [samePair]

/-- C2: a valid `blockUser u v` call, from any prior pair state, leaves exactly
one row for the unordered pair and that row is `status = blocked`,
`requesterId = u`, `addresseeId = v`; the response is 200 exactly when an
existing row was overwritten in place and 201 exactly when a new row was
created. -/
theorem c2_blockUser_overwrite (users : List User) (s : Store) (u v : Nat)
    (hne : u ≠ v) (hv : (findUser users v).isSome) (hinv : pairUnique s) :
    ((blockUser users s u v).status = if (findPair s u v).isSome then 200 else 201) ∧
    (∃ i, (blockUser users s u v).store.contacts.filter (fun c => samePair c u v) =
      [⟨i, u, v, CStatus.blocked⟩]) := by
  obtain ⟨uv, huv⟩ := Option.isSome_iff_exists.mp hv
  refine ⟨?_, blockUser_pair_row users s u v hne uv huv hinv⟩
  cases hfp : findPair s u v with
  | some c => simp [blockUser, hne, huv, hfp]
  | none => simp [blockUser, hne, huv, hfp]

/-- Witness for C2: blocking over an existing accepted row stored in the
opposite orientation yields 200 and exactly one blocked row `(1, 2)`. -/
theorem c2_blockUser_overwrite_witness :
    ((blockUser [{id := 1}, {id := 2}] ⟨[⟨3, 2, 1, CStatus.accepted⟩], 4⟩ 1 2).status =
      if (findPair ⟨[⟨3, 2, 1, CStatus.accepted⟩], 4⟩ 1 2).isSome then 200 else 201) ∧
    (∃ i, (blockUser [{id := 1}, {id := 2}]
        ⟨[⟨3, 2, 1, CStatus.accepted⟩], 4⟩ 1 2).store.contacts.filter
        (fun c => samePair c 1 2) = [⟨i, 1, 2, CStatus.blocked⟩]) :=
  c2_blockUser_overwrite [{id := 1}, {id := 2}] ⟨[⟨3, 2, 1, CStatus.accepted⟩], 4⟩ 1 2
    (by decide) (by decide)
    (fun u v _ => le_trans (List.length_filter_le _ _) (by simp))

/-- C8: for distinct existing users, after `blockUser u v` a subsequent
`unblockUser u v` succeeds (200) and leaves no row for the pair, and a
subsequent `requestConnection u v` succeeds (201), appending a fresh pending
row with `requesterId = u`. -/
theorem c8_block_unblock_rerequest (users : List User) (s : Store) (u v : Nat)
    (hne : u ≠ v) (hu : (findUser users u).isSome) (hv : (findUser users v).isSome)
    (hinv : pairUnique s) :
    (unblockUser (blockUser users s u v).store u v).status = 200 ∧
    (unblockUser (blockUser users s u v).store u v).store.contacts.filter
      (fun c => samePair c u v) = [] ∧
    (sendFriendRequest users (unblockUser (blockUser users s u v).store u v).store u v).status
      = 201 ∧
    (sendFriendRequest users
        (unblockUser (blockUser users s u v).store u v).store u v).store.contacts =
      (unblockUser (blockUser users s u v).store u v).store.contacts ++
        [⟨(unblockUser (blockUser users s u v).store u v).store.nextId, u, v,
          CStatus.pending⟩] := by
  obtain ⟨uv, huv⟩ := Option.isSome_iff_exists.mp hv
  obtain ⟨ua, hua⟩ := Option.isSome_iff_exists.mp hu
  obtain ⟨i, hfl⟩ := blockUser_pair_row users s u v hne uv huv hinv
  have hq : (fun c => decide (c.requesterId = u ∧ c.addresseeId = v ∧
      c.status = CStatus.blocked)) (⟨i, u, v, CStatus.blocked⟩ : Contact) = true := by
    simp
  have hrowmem : (⟨i, u, v, CStatus.blocked⟩ : Contact) ∈
      (blockUser users s u v).store.contacts := by
    have hm : (⟨i, u, v, CStatus.blocked⟩ : Contact) ∈
        (blockUser users s u v).store.contacts.filter (fun c => samePair c u v) := by
      rw [hfl]
      simp
    exact (List.mem_filter.mp hm).1
  have hfind : (blockUser users s u v).store.contacts.find? (fun c =>
      decide (c.requesterId = u ∧ c.addresseeId = v ∧ c.status = CStatus.blocked)) =
      some ⟨i, u, v, CStatus.blocked⟩ := by
    rcases hex : (blockUser users s u v).store.contacts.find? (fun c =>
        decide (c.requesterId = u ∧ c.addresseeId = v ∧ c.status = CStatus.blocked)) with _ | x
    · exact absurd hq (by simpa using List.find?_eq_none.mp hex _ hrowmem)
    · have hxl : x ∈ (blockUser users s u v).store.contacts :=
        List.mem_of_find?_eq_some hex
      have hqx := List.find?_some hex
      have hpx : samePair x u v = true := by
        simp only [decide_eq_true_eq] at hqx
        simp [samePair, hqx.1, hqx.2.1]
      have hxf : x ∈ (blockUser users s u v).store.contacts.filter
          (fun c => samePair c u v) := List.mem_filter.mpr ⟨hxl, hpx⟩
      rw [hfl] at hxf
      simp at hxf
      exact hxf ▸ hex
  have hst2 : (unblockUser (blockUser users s u v).store u v).status = 200 := by
    simp only [unblockUser, hfind]
  have hnil : (unblockUser (blockUser users s u v).store u v).store.contacts.filter
      (fun c => samePair c u v) = [] := by
    simp only [unblockUser, hfind]
    exact filter_eraseP_nil (fun c => samePair c u v) _
      (fun x hx => by
        simp only [decide_eq_true_eq] at hx
        simp [samePair, hx.1, hx.2.1])
      (blockUser users s u v).store.contacts ⟨i, u, v, CStatus.blocked⟩ hfl hq
  have hfp2 : findPair (unblockUser (blockUser users s u v).store u v).store u v = none :=
    findPair_none_of_filter_nil _ u v hnil
  refine ⟨hst2, hnil, ?_, ?_⟩ <;>
    simp [sendFriendRequest, hne, huv, hfp2, hua]

/-- Witness for C8: the concrete block → unblock → re-request round trip for
users 1 and 2 starting from an accepted friendship. -/
theorem c8_block_unblock_rerequest_witness :
    (unblockUser (blockUser [{id := 1}, {id := 2}]
        ⟨[⟨3, 2, 1, CStatus.accepted⟩], 4⟩ 1 2).store 1 2).status = 200 ∧
    (unblockUser (blockUser [{id := 1}, {id := 2}]
        ⟨[⟨3, 2, 1, CStatus.accepted⟩], 4⟩ 1 2).store 1 2).store.contacts.filter
      (fun c => samePair c 1 2) = [] ∧
    (sendFriendRequest [{id := 1}, {id := 2}]
        (unblockUser (blockUser [{id := 1}, {id := 2}]
          ⟨[⟨3, 2, 1, CStatus.accepted⟩], 4⟩ 1 2).store 1 2).store 1 2).status = 201 ∧
    (sendFriendRequest [{id := 1}, {id := 2}]
        (unblockUser (blockUser [{id := 1}, {id := 2}]
          ⟨[⟨3, 2, 1, CStatus.accepted⟩], 4⟩ 1 2).store 1 2).store 1 2).store.contacts =
      (unblockUser (blockUser [{id := 1}, {id := 2}]
          ⟨[⟨3, 2, 1, CStatus.accepted⟩], 4⟩ 1 2).store 1 2).store.contacts ++
        [⟨(unblockUser (blockUser [{id := 1}, {id := 2}]
            ⟨[⟨3, 2, 1, CStatus.accepted⟩], 4⟩ 1 2).store 1 2).store.nextId, 1, 2,
          CStatus.pending⟩] :=
  c8_block_unblock_rerequest [{id := 1}, {id := 2}] ⟨[⟨3, 2, 1, CStatus.accepted⟩], 4⟩ 1 2
    (by decide) (by decide) (by decide)
    (fun u v _ => le_trans (List.length_filter_le _ _) (by simp))

/-- `lastValue` misses when no pair carries the key. -/
theorem lastValue_eq_none {α : Type} (l : List (Nat × α)) (k : Nat)
    (h : ∀ p ∈ l, p.1 ≠ k) : lastValue l k = none := by
  induction l with
  | nil => rfl
  | cons p rest ih =>
    simp only [lastValue]
    rw [ih (fun q hq => h q (List.mem_cons_of_mem p hq))]
    rw [if_neg (h p (List.mem_cons_self p rest))]

/-- On a keyed map built from a function, `lastValue` returns the function's
value at any present key. -/
theorem lastValue_map_self {α : Type} (g : Nat → α) (k : Nat) :
    ∀ l : List Nat, k ∈ l → lastValue (l.map (fun x => (x, g x))) k = some (g k) := by
  intro l
  induction l with
  | nil =>
    intro h
    simp at h
  | cons a rest ih =>
    intro h
    by_cases hk : k ∈ rest
    · simp only [List.map_cons, lastValue, ih hk]
    · have hnone : lastValue (rest.map (fun x => (x, g x))) k = none := by
        refine lastValue_eq_none _ _ ?_
        intro p hp
        obtain ⟨x, hx, rfl⟩ := List.mem_map.mp hp
        exact fun hc => hk (hc ▸ hx)
      have ha : a = k := by
        rcases List.mem_cons.mp h with h | h
        · exact h.symm
        · exact absurd h hk
      simp only [List.map_cons, lastValue, hnone]
      rw [if_pos ha, ha]

/-- The composed friends view when both batch loads succeed, written out. -/
theorem getFriends_ok_eq (userId : Nat) (users : List User) (s : Store)
    (unreadRows : List UnreadRow) (L : Nat → Except Unit (Option LastMsg)) :
    getFriends userId users s unreadRows true true L =
      Except.ok ((friendsListOf userId users s).map (fun friend =>
        mkFriendEntry friend
          (lastValue ((unreadCountsOf userId unreadRows
              ((friendsListOf userId users s).map (fun f => f.id))).map
            (fun r => (r.chatId, r.count))) friend.id)
          ((lastValue (lastMessagesOf ((friendsListOf userId users s).map (fun f => f.id)) L)
              friend.id).join))) := rfl

/-- For any friend in the resolved list, the last-message map holds exactly the
caught outcome of that friend's own lookup. -/
theorem lastMessages_at_friend (userId : Nat) (users : List User) (s : Store)
    (L : Nat → Except Unit (Option LastMsg)) (f : User)
    (hf : f ∈ friendsListOf userId users s) :
    lastValue (lastMessagesOf ((friendsListOf userId users s).map (fun x => x.id)) L) f.id =
      some (match L f.id with | Except.ok m => m | Except.error _ => none) := by
  have h := lastValue_map_self
    (α := Option LastMsg)
    ((fun fid => match L fid with | Except.ok m => m | Except.error _ => none) :
      Nat → Option LastMsg)
    f.id ((friendsListOf userId users s).map (fun x => x.id))
    (List.mem_map.mpr ⟨f, hf, rfl⟩)
  exact h

/-- C4 (amended): the friends aggregation isolates per-friend last-message
failures — with both batch loads up, the call always succeeds, a friend whose
lookup failed gets an empty last-message while entries of other friends are
unchanged, and a friend with no stored unread row gets count 0; the whole call
fails (`InternalFailure`) exactly when the primary relationship load or the
batch unread-count load fails. -/
theorem c4_partial_failure_isolation (userId : Nat) (users : List User) (s : Store)
    (unreadRows : List UnreadRow) (L : Nat → Except Unit (Option LastMsg)) :
    (∀ b, getFriends userId users s unreadRows false b L = Except.error ()) ∧
    (getFriends userId users s unreadRows true false L = Except.error ()) ∧
    (∃ l, getFriends userId users s unreadRows true true L = Except.ok l) ∧
    (∀ l, getFriends userId users s unreadRows true true L = Except.ok l →
      (∀ e ∈ l, L e.id = Except.error () → e.lastMessage = none ∧ e.messages = []) ∧
      (∀ e ∈ l, (∀ r ∈ unreadRows, ¬(r.userId = userId ∧ r.chatId = e.id)) →
        e.unreadCount = 0)) ∧
    (∀ (L2 : Nat → Except Unit (Option LastMsg)) (fid0 : Nat),
      (∀ fid, fid ≠ fid0 → L fid = L2 fid) →
      ∀ l l2, getFriends userId users s unreadRows true true L = Except.ok l →
        getFriends userId users s unreadRows true true L2 = Except.ok l2 →
        ∀ (i : Nat) (e : FriendEntry), l[i]? = some e → e.id ≠ fid0 → l2[i]? = some e) := by
  refine ⟨fun b => rfl, rfl, ⟨_, rfl⟩, ?_, ?_⟩
  · intro l hl
    rw [getFriends_ok_eq] at hl
    have hl' := (Except.ok.inj hl).symm
    subst hl'
    constructor
    · intro e he herr
      obtain ⟨f, hf, rfl⟩ := List.mem_map.mp he
      have hmap := lastMessages_at_friend userId users s L f hf
      have hid : (mkFriendEntry f
          (lastValue ((unreadCountsOf userId unreadRows
              ((friendsListOf userId users s).map (fun x => x.id))).map
            (fun r => (r.chatId, r.count))) f.id)
          ((lastValue (lastMessagesOf ((friendsListOf userId users s).map (fun x => x.id)) L)
              f.id).join)).id = f.id := rfl
      rw [hid] at herr
      rw [hmap] at *
      simp [mkFriendEntry, herr]
    · intro e he hno
      obtain ⟨f, hf, rfl⟩ := List.mem_map.mp he
      have hnone : lastValue ((unreadCountsOf userId unreadRows
          ((friendsListOf userId users s).map (fun x => x.id))).map
            (fun r => (r.chatId, r.count))) f.id = none := by
        refine lastValue_eq_none _ _ ?_
        intro p hp
        obtain ⟨r, hr, rfl⟩ := List.mem_map.mp hp
        have hrrows : r ∈ unreadRows ∧ _ := List.mem_filter.mp hr
        have hru : r.userId = userId := by
          have := hrrows.2
          simp only [Bool.and_eq_true, decide_eq_true_eq] at this
          exact this.1.1
        intro hc
        exact hno r hrrows.1 ⟨hru, hc⟩
      rw [hnone]
      rfl
  · intro L2 fid0 hagree l l2 hl hl2 i e hie hne
    rw [getFriends_ok_eq] at hl hl2
    replace hl := (Except.ok.inj hl).symm
    replace hl2 := (Except.ok.inj hl2).symm
    subst hl
    subst hl2
    rw [List.getElem?_map] at hie ⊢
    rcases hif : (friendsListOf userId users s)[i]? with _ | f
    · rw [hif] at hie
      exact absurd hie (by simp)
    · rw [hif] at hie
      rw [Option.map_some'] at hie ⊢
      have hef := Option.some.inj hie
      have hfmem : f ∈ friendsListOf userId users s := List.getElem?_mem hif
      have hfid : f.id ≠ fid0 := by
        intro hc
        apply hne
        rw [← hef]
        exact hc
      have hLf : L f.id = L2 f.id := hagree f.id hfid
      rw [← hef]
      have h1 := lastMessages_at_friend userId users s L f hfmem
      have h2 := lastMessages_at_friend userId users s L2 f hfmem
      rw [h1, h2, hLf]

/-- Counterexample to C4 as stated: with the primary relationship load
succeeding but the batch unread-count load failing, the whole call still fails
— so the primary load is not the only load whose failure aborts the request. -/
theorem c4_counterexample :
    getFriends 1 [{id := 1, name := "a"}, {id := 2, name := "b"}]
      ⟨[⟨5, 2, 1, CStatus.accepted⟩], 6⟩ [] true false (fun _ => Except.ok none) =
      Except.error () := rfl

/-- Witness for C4 (amended): concrete two-friend store where friend 2's
last-message lookup fails; the call succeeds and entry facts follow from the
theorem. -/
theorem c4_partial_failure_isolation_witness :
    ∃ l, getFriends 1
        [{id := 1, name := "a"}, {id := 2, name := "b"}, {id := 3, name := "c"}]
        ⟨[⟨5, 2, 1, CStatus.accepted⟩, ⟨6, 1, 3, CStatus.accepted⟩], 7⟩
        [⟨1, "individual", 3, 4⟩] true true
        (fun fid => if fid = 2 then Except.error () else Except.ok (some ⟨3, "yo"⟩)) =
      Except.ok l :=
  (c4_partial_failure_isolation 1
    [{id := 1, name := "a"}, {id := 2, name := "b"}, {id := 3, name := "c"}]
    ⟨[⟨5, 2, 1, CStatus.accepted⟩, ⟨6, 1, 3, CStatus.accepted⟩], 7⟩
    [⟨1, "individual", 3, 4⟩]
    (fun fid => if fid = 2 then Except.error () else Except.ok (some ⟨3, "yo"⟩))).2.2.1

end PingMe
